import Mathlib

/-!
Verification development for the article knowledge-base backend
(retrieval-ranking and agent-orchestration pipeline).

Shallow embedding conventions:
* TypeScript strings are Lean `String`s, except for the embedding-input
  computation (`convex/articles.ts` / the current article mutations) where the
  character-level truncation is modelled over `List Char`.
* JavaScript (IEEE double) arithmetic on embedding vectors is idealised as
  exact arithmetic over `ℝ`; `Math.sqrt` is `Real.sqrt`.  JavaScript has no
  exceptions on `0/0` or out-of-range indexing: `undefined`-propagating
  arithmetic (which would yield `NaN`) is modelled by the junk values of total
  Lean operations (division by zero is `0`; a missing vector entry reads as
  `0`).  Where a claim hinges on that junk value only membership and shape of
  result lists are asserted, never the junk score itself.
* Convex database / OpenAI / LLM collaborators are parameters of the embedded
  functions (`SearchEnv`), so each theorem quantifies over their behaviour.
* Fallible collaborator calls whose errors the source catches are modelled as
  `Except Unit` / `Option` values.
-/

/-! ### Article data model (convex/schema.ts, current generation)

Only the fields consumed by the retrieval pipeline are carried: identity,
content fields, channel / status (the two vector-index filter fields),
author identifier and the optional embedding vector. -/

structure Article where
  id : ℕ
  title : String
  content : String
  subtitle : String
  link : String
  channel : Option ℤ
  status : Option ℤ
  author_id : Option ℤ
  embedding : Option (List ℝ)

/-- The slim article shape returned by the search actions
(`SlimArticleDataValidator` in convex/agent.ts): the source always populates
`reconstructedLink` when building these records. -/
structure SlimArticle where
  id : ℕ
  title : String
  content : String
  subtitle : Option String
  link : String
  reconstructedLink : String
deriving DecidableEq

/-! ### JavaScript-level helpers -/

/-- JavaScript truthiness of an optional string argument
(`if (args.filterChannel)`): absent and empty strings are falsy. -/
def strTruthy : Option String → Bool
  | some s => !decide (s = "")
  | none => false

/-- Numeric value of a run of decimal digits (helper for `parseIntOpt`). -/
def digitsToNat (l : List Char) : ℕ :=
  l.foldl (fun acc c => 10 * acc + (c.toNat - 48)) 0

/-- JavaScript `parseInt(s, 10)` together with the `isNaN` check the source
performs on its result: leading whitespace is skipped, an optional sign and a
leading run of decimal digits are read; `none` models `NaN` (no digits). -/
def parseIntOpt (s : String) : Option ℤ :=
  match s.data.dropWhile Char.isWhitespace with
  | [] => none
  | c :: rest =>
    let signAndDigits : ℤ × List Char :=
      if c = '-' then (-1, rest)
      else if c = '+' then (1, rest)
      else (1, c :: rest)
    let digits := signAndDigits.2.takeWhile Char.isDigit
    if digits.isEmpty then none
    else some (signAndDigits.1 * (digitsToNat digits : ℤ))

/-- A Convex field value as seen by a vector-index equality filter.  Convex
equality is typed: a number-valued field never equals a string constant. -/
inductive CValue where
  | int (n : ℤ)
  | str (s : String)
  | null
deriving DecidableEq

/-- The `channel` field of an article as a Convex filter value. -/
def channelVal (a : Article) : CValue :=
  match a.channel with
  | some n => CValue.int n
  | none => CValue.null

/-- The `status` field of an article as a Convex filter value. -/
def statusVal (a : Article) : CValue :=
  match a.status with
  | some n => CValue.int n
  | none => CValue.null

/-! ### Vector-search filter expressions

The source builds ad hoc closures; they are embedded as optional boolean
predicates on articles (`undefined` filter = no filtering). -/

/-- Filter construction of `searchSimilarArticlesInternal` in convex/agent.ts
(lines 493-539): the channel slug is first resolved to a numeric channel id
via `api.channels.getChannelOriginalIdBySlug` (an unresolved slug, or a lookup
error which the source catches, leaves `channelIdForFilter` null), the status
string goes through `parseInt`, and the branches mirror the source exactly. -/
def internalFilter (channelBySlug : String → Option ℤ)
    (filterChannel filterStatus : Option String) : Option (Article → Bool) :=
  let channelIdForFilter : Option ℤ :=
    if strTruthy filterChannel then channelBySlug (filterChannel.getD "") else none
  if channelIdForFilter.isSome && strTruthy filterStatus then
    match parseIntOpt (filterStatus.getD "") with
    | some statusAsNumber =>
      some (fun a => decide (a.channel = channelIdForFilter) &&
        decide (a.status = some statusAsNumber))
    | none =>
      if channelIdForFilter.isSome then
        some (fun a => decide (a.channel = channelIdForFilter))
      else none
  else if channelIdForFilter.isSome then
    some (fun a => decide (a.channel = channelIdForFilter))
  else if strTruthy filterStatus then
    match parseIntOpt (filterStatus.getD "") with
    | some statusAsNumber => some (fun a => decide (a.status = some statusAsNumber))
    | none => none
  else none

/-- Filter construction of the public `searchSimilarArticles` action
(convex/agent.ts lines 427-438, identically convex/embeddingActions.ts): the
raw string arguments are compared against the numeric `channel` / `status`
fields, and when both are present they are combined with `q.or`. -/
def publicFilter (filterChannel filterStatus : Option String) :
    Option (Article → Bool) :=
  if strTruthy filterChannel && strTruthy filterStatus then
    some (fun a =>
      decide (channelVal a = CValue.str (filterChannel.getD "")) ||
      decide (statusVal a = CValue.str (filterStatus.getD "")))
  else if strTruthy filterChannel then
    some (fun a => decide (channelVal a = CValue.str (filterChannel.getD "")))
  else if strTruthy filterStatus then
    some (fun a => decide (statusVal a = CValue.str (filterStatus.getD "")))
  else none

/-- How the vector index applies an optional filter expression: an
`undefined` filter matches every document. -/
def applyFilter (f : Option (Article → Bool)) (a : Article) : Bool :=
  match f with
  | none => true
  | some p => p a

/-! ### Link reconstruction and slim mapping (convex/agent.ts lines 585-608
and 689-713) -/

/-- Canonical public URL reconstruction: channel slug (omitted when the
article has no channel, the lookup fails — caught by the source — or returns
null) composed with the article link slug. -/
def reconstructedLinkOf (slugById : ℤ → Option String) (a : Article) : String :=
  match a.channel with
  | none => "advisorpedia.com/" ++ a.link
  | some cid =>
    match slugById cid with
    | some channelSlugForLink =>
      "advisorpedia.com/" ++ channelSlugForLink ++ "/" ++ a.link
    | none => "advisorpedia.com/" ++ a.link

/-- Mapping of a hydrated article to the slim result structure: the
reconstructed link is appended to a working copy of the content
(`(Source: url)` suffix), and an empty subtitle becomes `undefined`
(JavaScript `doc.subtitle || undefined`). -/
def toSlim (slugById : ℤ → Option String) (a : Article) : SlimArticle :=
  let articleLink := reconstructedLinkOf slugById a
  { id := a.id
    title := a.title
    content := a.content ++ "\n\n(Source: " ++ articleLink ++ ")"
    subtitle := if a.subtitle.isEmpty then none else some a.subtitle
    link := a.link
    reconstructedLink := articleLink }

/-! ### Collaborator environment -/

/-- External collaborators of the search actions.  `embed` is `none` when the
OpenAI call throws or the response carries no embedding (the source's
`!queryEmbedding` guard; note an empty-but-present array is truthy and passes
that guard, hence `some []` is a distinct outcome).  `vectorSearch`,
`fetchByIds` and `fetchByAuthors` return `Except.error` when the call throws
(caught by the source). -/
structure SearchEnv where
  embed : String → Option (List ℝ)
  channelBySlug : String → Option ℤ
  vectorSearch : List ℝ → ℕ → Option (Article → Bool) → Except Unit (List ℕ)
  fetchByIds : List ℕ → Except Unit (List Article)
  slugById : ℤ → Option String
  fetchByAuthors : List ℤ → Except Unit (List Article)

/-- Arguments of the search actions. -/
structure SearchArgs where
  searchQuery : String
  filterChannel : Option String
  filterStatus : Option String
  limit : Option ℕ

/-- `searchSimilarArticlesInternal` (convex/agent.ts lines 464-612): embed the
query (failure returns `[]`), build the filter, run the vector search
(errors caught, `[]`), hydrate (errors caught, `[]`; empty guards mirrored)
and map to the slim structure. -/
def searchSimilarArticlesInternal (env : SearchEnv) (args : SearchArgs) :
    List SlimArticle :=
  match env.embed args.searchQuery with
  | none => []
  | some queryEmbedding =>
    let filterExpression :=
      internalFilter env.channelBySlug args.filterChannel args.filterStatus
    match env.vectorSearch queryEmbedding (args.limit.getD 10) filterExpression with
    | Except.error _ => []
    | Except.ok searchResults =>
      if searchResults.isEmpty then []
      else
        match env.fetchByIds searchResults with
        | Except.error _ => []
        | Except.ok fullDocuments =>
          if fullDocuments.isEmpty then []
          else fullDocuments.map (toSlim env.slugById)

/-- The public `searchSimilarArticles` action (convex/agent.ts lines
402-461): same skeleton, but the filter is `publicFilter` over the raw
arguments, no slug resolution happens, collaborator errors after the
embedding step are not caught (they propagate as `Except.error`), and the
full hydrated documents are returned. -/
def searchSimilarArticles (env : SearchEnv) (args : SearchArgs) :
    Except Unit (List Article) :=
  match env.embed args.searchQuery with
  | none => Except.ok []
  | some queryEmbedding =>
    match env.vectorSearch queryEmbedding (args.limit.getD 10)
        (publicFilter args.filterChannel args.filterStatus) with
    | Except.error e => Except.error e
    | Except.ok searchResults =>
      if searchResults.isEmpty then Except.ok []
      else env.fetchByIds searchResults

/-! ### Sponsored retriever similarity ranking (convex/agent.ts lines 614-717) -/

/-- The dot product loop `queryEmbedding.reduce((sum, val, i) => sum + val *
article.embedding![i], 0)`: it runs over the query's indices; an out-of-range
candidate entry (JavaScript `undefined`, poisoning the float sum to `NaN`)
contributes the junk value `0` here. -/
def dotProduct (q e : List ℝ) : ℝ :=
  (List.zipWith (fun a b => a * b) q e).sum

/-- `reduce((sum, val) => sum + val * val, 0)`. -/
def sumSquares (l : List ℝ) : ℝ :=
  (l.map (fun v => v * v)).sum

/-- `Math.sqrt` of the sum of squares. -/
noncomputable def magnitude (l : List ℝ) : ℝ :=
  Real.sqrt (sumSquares l)

/-- The unguarded cosine similarity `dotProduct / (queryMagnitude *
articleMagnitude)`; the division by a zero magnitude (JavaScript `NaN`)
yields the junk value `0`. -/
noncomputable def cosineSimilarity (q e : List ℝ) : ℝ :=
  dotProduct q e / (magnitude q * magnitude e)

/-- The candidate filter `article.embedding && article.embedding.length > 0`. -/
def hasNonemptyEmbedding (a : Article) : Bool :=
  match a.embedding with
  | some l => decide (0 < l.length)
  | none => false

/-- Descending order on scored candidates, as induced by the comparator
`(a, b) => b.similarity - a.similarity`. -/
def simDescending (x y : Article × ℝ) : Prop := y.2 ≤ x.2

instance : IsTotal (Article × ℝ) simDescending :=
  ⟨fun a b => le_total b.2 a.2⟩

instance : IsTrans (Article × ℝ) simDescending :=
  ⟨fun _ _ _ h1 h2 => le_trans h2 h1⟩

noncomputable instance : DecidableRel simDescending :=
  fun x y => inferInstanceAs (Decidable (y.2 ≤ x.2))

/-- The ranking pipeline of `searchSponsoredContributorArticles` (lines
666-685): filter to candidates with a present, non-empty embedding, score by
cosine similarity against the query, sort descending, take the top
`limit ?? 3`. -/
noncomputable def rankSponsored (queryEmbedding : List ℝ)
    (contributorArticles : List Article) (limit : Option ℕ) :
    List (Article × ℝ) :=
  (List.insertionSort simDescending
    ((contributorArticles.filter hasNonemptyEmbedding).map
      (fun article =>
        (article, cosineSimilarity queryEmbedding (article.embedding.getD []))))).take
    (limit.getD 3)

/-- `searchSponsoredContributorArticles` (convex/agent.ts lines 614-717):
empty allowlist returns `[]`; fetch all candidate articles by author id
(errors caught, `[]`; empty guard mirrored); embed the query (failure
returns `[]`); rank; map to the slim structure. -/
noncomputable def searchSponsoredContributorArticles (env : SearchEnv)
    (searchQuery : String) (contributorIds : List ℤ) (limit : Option ℕ) :
    List SlimArticle :=
  if contributorIds.isEmpty then []
  else
    match env.fetchByAuthors contributorIds with
    | Except.error _ => []
    | Except.ok contributorArticles =>
      if contributorArticles.isEmpty then []
      else
        match env.embed searchQuery with
        | none => []
        | some queryEmbedding =>
          (rankSponsored queryEmbedding contributorArticles limit).map
            (fun p => toSlim env.slugById p.1)

/-! ### Embedding input text (current article mutations:
`createArticle` / `updateArticle` / `fixMissingEmbeddings`, and the legacy
`convex/articles.ts` variant).  The character-level computation is modelled
over `List Char`. -/

/-- `MAX_EMBEDDING_TEXT_CHARS`. -/
def MAX_EMBEDDING_TEXT_CHARS : ℕ := 17000

/-- The `"\n\n"` separator. -/
def newlinePair : List Char := ['\n', '\n']

/-- The shared inline computation of the current mutations:
`(title || "") + "\n\n" + (content || "") + "\n\n" + (subtitle || "") + "\n\n"
+ (link || "")`, truncated with `substring(0, MAX_EMBEDDING_TEXT_CHARS)` when
longer than the limit (`||` with `""` is the identity on strings). -/
def textToEmbed (title content subtitle link : List Char) : List Char :=
  let t := title ++ newlinePair ++ content ++ newlinePair ++ subtitle ++
    newlinePair ++ link
  if MAX_EMBEDDING_TEXT_CHARS < t.length then t.take MAX_EMBEDDING_TEXT_CHARS
  else t

/-- The legacy `convex/articles.ts` `createArticle` (lines 82-91) schedules
embedding of `args.title + "\n\n" + args.content` — no subtitle, no link, no
truncation. -/
def legacyTextToEmbed (title content : List Char) : List Char :=
  title ++ newlinePair ++ content

/-! ### Rate limiter (configurations from convex http bundle, rateLimiter
section; token-bucket mechanics and the admission gate modelled from the
spec) -/

/-- `MINUTE` from the rate-limiter component, in milliseconds. -/
def MINUTE : ℚ := 60000

/-- `HOUR` from the rate-limiter component, in milliseconds. -/
def HOUR : ℚ := 3600000

/-- A token-bucket limit configuration. -/
structure RateLimitConfig where
  rate : ℚ
  period : ℚ
  capacity : ℚ
  shards : ℕ

/-- The `globalSearch` configuration: 1000 per hour, burst 100, 10 shards. -/
def globalSearchLimit : RateLimitConfig :=
  { rate := 1000, period := HOUR, capacity := 100, shards := 10 }

/-- The `threadSearch` configuration: 60 per hour, burst 10, unsharded. -/
def threadSearchLimit : RateLimitConfig :=
  { rate := 60, period := HOUR, capacity := 10, shards := 1 }

/-- The `testLimit` configuration: 3 per minute, burst 2, unsharded. -/
def testLimit : RateLimitConfig :=
  { rate := 3, period := MINUTE, capacity := 2, shards := 1 }

/-- Modelled from the spec: a persisted rate-limit bucket — fractional token
count and last-refill timestamp (milliseconds). -/
structure Bucket where
  value : ℚ
  ts : ℚ

/-- Modelled from the spec: lazy refill at check/consume time,
`min(capacity, value + elapsed_time * rate / period)`. -/
def refillValue (cfg : RateLimitConfig) (b : Bucket) (now : ℚ) : ℚ :=
  min cfg.capacity (b.value + (now - b.ts) * cfg.rate / cfg.period)

/-- Result of a consume call. -/
structure ConsumeResult where
  ok : Bool
  retryAfter : Option ℚ
deriving DecidableEq

/-- Modelled from the spec: `consume` — if the refilled value covers the
count, subtract and persist; otherwise reject with the time needed to
accumulate the shortfall at the configured rate, leaving the bucket
unchanged. -/
def consumeBucket (cfg : RateLimitConfig) (b : Bucket) (now : ℚ) (count : ℚ) :
    ConsumeResult × Bucket :=
  let r := refillValue cfg b now
  if count ≤ r then
    ({ ok := true, retryAfter := none }, { value := r - count, ts := now })
  else
    ({ ok := false, retryAfter := some ((count - r) * cfg.period / cfg.rate) }, b)

/-- Modelled from the spec: a sharded limit splits capacity and rate evenly
across its shards; a consume operation touches a single shard. -/
def shardConfig (cfg : RateLimitConfig) : RateLimitConfig :=
  { cfg with rate := cfg.rate / cfg.shards, capacity := cfg.capacity / cfg.shards }

/-- The persisted rate-limiter state: one bucket per global shard, one bucket
per conversation (thread) key. -/
structure RateLimiterState where
  globalShards : ℕ → Bucket
  threadBuckets : String → Bucket

/-- Outcome of the two-tier admission gate. -/
inductive GateOutcome where
  | admitted
  | rejectedGlobal (retryAfter : Option ℚ)
  | rejectedThread (retryAfter : Option ℚ)
deriving DecidableEq

/-- Modelled from the spec: the admission gate of the agent request path (the
rate-limiting documentation's request flow) — consume `globalSearch` on one
shard first; only when that check passes is the per-thread `threadSearch`
bucket consumed; a global rejection terminates the request. -/
def admissionGate (now : ℚ) (shard : ℕ) (threadId : String)
    (s : RateLimiterState) : GateOutcome × RateLimiterState :=
  let gIdx := shard % globalSearchLimit.shards
  let g := consumeBucket (shardConfig globalSearchLimit) (s.globalShards gIdx) now 1
  let s1 : RateLimiterState :=
    { s with globalShards := fun i => if i = gIdx then g.2 else s.globalShards i }
  if g.1.ok then
    let t := consumeBucket threadSearchLimit (s.threadBuckets threadId) now 1
    let s2 : RateLimiterState :=
      { s1 with
        threadBuckets := fun k => if k = threadId then t.2 else s1.threadBuckets k }
    if t.1.ok then (GateOutcome.admitted, s2)
    else (GateOutcome.rejectedThread t.1.retryAfter, s2)
  else (GateOutcome.rejectedGlobal g.1.retryAfter, s1)

/-! ### Agent orchestrator response assembly (convex/agent.ts response shape;
sponsored merge modelled from the spec) -/

/-- A source reference in the structured response. -/
structure SourceRef where
  title : String
  link : String
  truncatedContent : String
deriving DecidableEq

/-- The source-reference truncation
`content.substring(0, 300) + (content.length > 300 ? "..." : "")`
(convex/agent.ts line 232). -/
def truncatedContentOf (content : String) : String :=
  content.take 300 ++ (if 300 < content.length then "..." else "")

/-- Mapping a slim article to a source reference: title, reconstructed link,
truncated content. -/
def toSourceRef (s : SlimArticle) : SourceRef :=
  { title := s.title
    link := s.reconstructedLink
    truncatedContent := truncatedContentOf s.content }

/-- The structured response of `sendMessageToAgent`. -/
structure SendMessageResponse where
  threadId : String
  responseText : String
  sources : Option (List SourceRef)
  sponsoredSources : Option (List SourceRef)
deriving DecidableEq

/-- Modelled from the spec: the orchestrator step of `sendMessageToAgent`
that merges the organic agent result with the Sponsored Retriever, which runs
only when a non-empty `sponsoredContributorIds` allowlist is supplied and
whose failure (error or timeout, `Except.error`) is caught and replaced by an
absent sponsored result; the organic response is returned either way.  The
variant of `sendMessageToAgent` that accepts `sponsoredContributorIds` is not
part of the bundled sources (only its HTTP caller and its documentation are),
so this merge is written from the spec's §4.5 and the sponsored-search flow
documentation. -/
def sendMessage (threadId : String) (organicText : String)
    (organicSources : Option (List SourceRef))
    (sponsoredContributorIds : Option (List ℤ))
    (sponsoredOutcome : Except Unit (List SlimArticle)) : SendMessageResponse :=
  let runSponsored :=
    match sponsoredContributorIds with
    | none => false
    | some ids => !ids.isEmpty
  let sponsoredSources :=
    if runSponsored then
      match sponsoredOutcome with
      | Except.error _ => none
      | Except.ok results => some (results.map toSourceRef)
    else none
  { threadId := threadId
    responseText := organicText
    sources := organicSources
    sponsoredSources := sponsoredSources }

/-! ### Concrete collaborator instances and stores used by the evaluation
theorems (mock environments exercising the embedded source functions on
explicit inputs) -/

/-- A channels table holding one channel: slug `"money"`, original id 7. -/
def mockLookup : String → Option ℤ :=
  fun s => if s = "money" then some 7 else none

/-- A vector index over an explicit store: applies the optional filter
expression, honours the limit, returns ids. -/
def mockVectorSearch (db : List Article) :
    List ℝ → ℕ → Option (Article → Bool) → Except Unit (List ℕ) :=
  fun _ limit filt =>
    Except.ok (((db.filter (fun a => applyFilter filt a)).map Article.id).take limit)

/-- Document hydration over an explicit store: ids that do not hydrate are
dropped. -/
def mockFetch (db : List Article) : List ℕ → Except Unit (List Article) :=
  fun ids => Except.ok (ids.filterMap (fun i => db.find? (fun a => a.id == i)))

/-- Author-allowlist fetch over an explicit store. -/
def mockFetchByAuthors (db : List Article) : List ℤ → Except Unit (List Article) :=
  fun authorIds =>
    Except.ok (db.filter (fun a =>
      match a.author_id with
      | some x => authorIds.contains x
      | none => false))

/-- A full collaborator environment over an explicit store; `embedResult` is
the outcome of every embedding call. -/
def mockEnv (db : List Article) (embedResult : Option (List ℝ)) : SearchEnv :=
  { embed := fun _ => embedResult
    channelBySlug := mockLookup
    vectorSearch := mockVectorSearch db
    fetchByIds := mockFetch db
    slugById := fun _ => none
    fetchByAuthors := mockFetchByAuthors db }

/-- An article that satisfies both a channel-7 filter and a status-1 filter. -/
def artA : Article :=
  { id := 1, title := "A", content := "body", subtitle := "", link := "a"
    channel := some 7, status := some 1, author_id := none, embedding := none }

/-- An article stored under channel 42. -/
def artX : Article :=
  { id := 2, title := "X", content := "C", subtitle := "", link := "x"
    channel := some 42, status := some 1, author_id := none
    embedding := some [1] }

/-- A sponsored contributor's article (author 5) with a non-empty stored
embedding. -/
def artS : Article :=
  { id := 3, title := "S", content := "sc", subtitle := "", link := "s"
    channel := none, status := some 1, author_id := some 5
    embedding := some [1] }

/-- A candidate with no stored embedding. -/
def artN : Article :=
  { id := 4, title := "N", content := "nc", subtitle := "", link := "n"
    channel := none, status := none, author_id := some 5, embedding := none }

/-- A candidate whose stored embedding is non-empty but has zero magnitude. -/
def artZero : Article :=
  { id := 5, title := "Z", content := "zc", subtitle := "", link := "z"
    channel := none, status := none, author_id := some 5
    embedding := some [0] }

/-- A candidate whose stored embedding is shorter than a two-dimensional
query vector. -/
def artShort : Article :=
  { id := 6, title := "H", content := "hc", subtitle := "", link := "h"
    channel := none, status := none, author_id := some 5
    embedding := some [2] }

/-- A rate-limiter state whose global shard buckets are empty and whose
per-thread buckets are full. -/
def sGate : RateLimiterState :=
  { globalShards := fun _ => { value := 0, ts := 0 }
    threadBuckets := fun _ => { value := 10, ts := 0 } }

/-! ## Theorems -/

/-- Helper: a string that `parseInt` accepts is truthy. -/
theorem strTruthy_of_parseIntOpt (s : String) (n : ℤ)
    (h : parseIntOpt s = some n) : strTruthy (some s) = true := by
  rcases hs : decide (s = "") with _ | _
  · simp [strTruthy, hs]
  · exfalso
    have hse : s = "" := of_decide_eq_true hs
    rw [hse] at h
    simp [parseIntOpt] at h

/-- C9 (amended): the embedding-input computation shared by the current
article mutations (`createArticle`, `updateArticle`, `fixMissingEmbeddings`)
submits exactly the concatenation title, content, subtitle, link joined by
blank lines, truncated to the first `MAX_EMBEDDING_TEXT_CHARS = 17000`
characters, and its result never exceeds 17000 characters. -/
theorem textToEmbed_spec (title content subtitle link : List Char) :
    textToEmbed title content subtitle link =
      (title ++ newlinePair ++ content ++ newlinePair ++ subtitle ++
        newlinePair ++ link).take MAX_EMBEDDING_TEXT_CHARS ∧
    (textToEmbed title content subtitle link).length ≤ MAX_EMBEDDING_TEXT_CHARS := by
  constructor
  · by_cases h : MAX_EMBEDDING_TEXT_CHARS <
        (title ++ newlinePair ++ content ++ newlinePair ++ subtitle ++
          newlinePair ++ link).length
    · simp [textToEmbed, h]
    · simp [textToEmbed, h, List.take_of_length_le (le_of_not_lt h)]
  · by_cases h : MAX_EMBEDDING_TEXT_CHARS <
        (title ++ newlinePair ++ content ++ newlinePair ++ subtitle ++
          newlinePair ++ link).length
    · simp only [textToEmbed, h, if_true, List.length_take]
      omega
    · simp only [textToEmbed, h, if_false]
      omega

/-- C9 counterexample: the legacy `convex/articles.ts` `createArticle`
submits `title + "\n\n" + content` for embedding, which differs from the
claimed concatenation already for one-character subtitle and link. -/
theorem legacy_createArticle_embedding_text_counterexample :
    legacyTextToEmbed "T".data "C".data ≠
      textToEmbed "T".data "C".data "S".data "L".data := by
  decide

/-- C5 (amended): in `searchSimilarArticlesInternal` (convex/agent.ts), when
the channel slug resolves to an id and the status string parses as a number,
the constructed vector-search filter is the conjunction of the two equality
filters; when only one of the two is present and valid (status absent, status
unparsable, channel absent, or channel unresolved), only that single filter
is applied. -/
theorem internalFilter_and_combination (channelBySlug : String → Option ℤ)
    (slug statusStr badStatus : String) (cid n : ℤ)
    (hslug : slug ≠ "") (hlookup : channelBySlug slug = some cid)
    (hstatus : parseIntOpt statusStr = some n)
    (hbad : parseIntOpt badStatus = none) :
    (∀ a, applyFilter (internalFilter channelBySlug (some slug) (some statusStr)) a =
      (decide (a.channel = some cid) && decide (a.status = some n))) ∧
    (∀ a, applyFilter (internalFilter channelBySlug (some slug) none) a =
      decide (a.channel = some cid)) ∧
    (∀ a, applyFilter (internalFilter channelBySlug (some slug) (some badStatus)) a =
      decide (a.channel = some cid)) ∧
    (∀ a, applyFilter (internalFilter channelBySlug none (some statusStr)) a =
      decide (a.status = some n)) ∧
    (∀ slug2, channelBySlug slug2 = none →
      ∀ a, applyFilter (internalFilter channelBySlug (some slug2) (some statusStr)) a =
        decide (a.status = some n)) := by
  have hstne : statusStr ≠ "" := by
    intro he
    rw [he] at hstatus
    simp [parseIntOpt] at hstatus
  refine ⟨?_, ?_, ?_, ?_, ?_⟩
  · intro a
    simp [internalFilter, applyFilter, strTruthy, hslug, hlookup, hstatus, hstne]
  · intro a
    simp [internalFilter, applyFilter, strTruthy, hslug, hlookup]
  · intro a
    by_cases h0 : badStatus = "" <;>
      simp [internalFilter, applyFilter, strTruthy, hslug, hlookup, hbad, h0]
  · intro a
    simp [internalFilter, applyFilter, strTruthy, hstatus, hstne]
  · intro slug2 h2 a
    by_cases h0 : slug2 = "" <;>
      simp [internalFilter, applyFilter, strTruthy, h0, h2, hstatus, hstne]

/-- C5 witness: the combination evaluated over the one-channel store
(`"money"` has id 7) at a concrete article with channel 7 and status 1. -/
theorem internalFilter_and_combination_witness :
    applyFilter (internalFilter mockLookup (some "money") (some "1")) artA = true ∧
    applyFilter (internalFilter mockLookup (some "money") (some "2")) artA = false ∧
    applyFilter (internalFilter mockLookup (some "money") none) artA = true ∧
    applyFilter (internalFilter mockLookup none (some "1")) artA = true := by
  have h1 := internalFilter_and_combination mockLookup "money" "1" "x" 7 1
    (by decide) (by decide) (by decide) (by decide)
  have h2 := internalFilter_and_combination mockLookup "money" "2" "x" 7 2
    (by decide) (by decide) (by decide) (by decide)
  refine ⟨?_, ?_, ?_, ?_⟩
  · rw [h1.1 artA]; decide
  · rw [h2.1 artA]; decide
  · rw [h1.2.1 artA]; decide
  · rw [h1.2.2.2.1 artA]; decide

/-- C5 counterexample: in the public `searchSimilarArticles` variants the two
supplied filters are combined with `q.or` over the raw string values, not
with the claimed AND over the resolved/parsed values — at an article whose
channel (7, the id the slug `"money"` resolves to) and status (1, the parse
of `"1"`) both satisfy the claimed equality filters, the code's filter
rejects it and the search returns no results. -/
theorem searchSimilarArticles_or_filter_counterexample :
    mockLookup "money" = some 7 ∧ parseIntOpt "1" = some 1 ∧
    artA.channel = some 7 ∧ artA.status = some 1 ∧
    applyFilter (publicFilter (some "money") (some "1")) artA = false ∧
    searchSimilarArticles (mockEnv [artA] (some [1]))
      { searchQuery := "q", filterChannel := some "money",
        filterStatus := some "1", limit := none } = Except.ok [] := by
  exact ⟨rfl, by decide, rfl, rfl, by decide, rfl⟩

/-- C1 (code-bug evaluation): in `searchSimilarArticlesInternal`, a channel
slug that does not resolve leaves `filterExpression` undefined, so the
vector search runs unfiltered and returns a matching article stored under
another channel — the code fails open, while its own log line and the spec
state that no articles are returned for an unresolved channel filter. -/
theorem searchInternal_unresolved_slug_returns_unfiltered_results :
    (mockEnv [artX] (some [1])).channelBySlug "nonexistent-slug" = none ∧
    artX.channel = some 42 ∧
    searchSimilarArticlesInternal (mockEnv [artX] (some [1]))
      { searchQuery := "retirement", filterChannel := some "nonexistent-slug",
        filterStatus := none, limit := none } =
      [{ id := 2, title := "X", content := "C\n\n(Source: advisorpedia.com/x)",
         subtitle := none, link := "x",
         reconstructedLink := "advisorpedia.com/x" }] ∧
    searchSimilarArticlesInternal (mockEnv [artX] (some [1]))
      { searchQuery := "retirement", filterChannel := some "nonexistent-slug",
        filterStatus := none, limit := none } ≠ [] := by
  exact ⟨rfl, rfl, by decide, by decide⟩

/-- C6 (amended): when the embedding call fails — it throws or yields no
vector (`none`) — both the article search and the sponsored search fail
closed with the empty result list instead of propagating the failure. -/
theorem searchPaths_embed_failure_fail_closed (env : SearchEnv)
    (args : SearchArgs) (contributorIds : List ℤ) (limit : Option ℕ)
    (h : env.embed args.searchQuery = none) :
    searchSimilarArticlesInternal env args = [] ∧
    searchSponsoredContributorArticles env args.searchQuery contributorIds limit = [] := by
  constructor
  · unfold searchSimilarArticlesInternal
    rw [h]
  · unfold searchSponsoredContributorArticles
    by_cases hc : contributorIds.isEmpty
    · simp [hc]
    · cases hf : env.fetchByAuthors contributorIds with
      | error e => simp [hc, hf]
      | ok arts =>
        by_cases ha : arts.isEmpty
        · simp [hc, hf, ha]
        · simp [hc, hf, ha, h]

/-- C6 witness: both searches evaluated against an environment whose
embedding call fails. -/
theorem searchPaths_embed_failure_fail_closed_witness :
    searchSimilarArticlesInternal (mockEnv [artX] none)
      { searchQuery := "q", filterChannel := none, filterStatus := none,
        limit := none } = [] ∧
    searchSponsoredContributorArticles (mockEnv [artS] none) "q" [5] none = [] := by
  exact ⟨(searchPaths_embed_failure_fail_closed (mockEnv [artX] none)
      { searchQuery := "q", filterChannel := none, filterStatus := none,
        limit := none } [5] none rfl).1,
    (searchPaths_embed_failure_fail_closed (mockEnv [artS] none)
      { searchQuery := "q", filterChannel := none, filterStatus := none,
        limit := none } [5] none rfl).2⟩

/-- C6 counterexample: an embedding call that returns an empty-but-present
vector passes the source's `!queryEmbedding` guard (an empty array is
truthy), and the sponsored search then returns a non-empty result list — the
claim's "or returns an empty vector → empty result list" does not hold. -/
theorem sponsored_empty_vector_counterexample :
    (mockEnv [artS] (some [])).embed "q" = some [] ∧
    searchSponsoredContributorArticles (mockEnv [artS] (some [])) "q" [5] none =
      [toSlim (fun _ => none) artS] ∧
    searchSponsoredContributorArticles (mockEnv [artS] (some [])) "q" [5] none ≠ [] := by
  refine ⟨rfl, rfl, ?_⟩
  exact fun h => List.cons_ne_nil _ _ h

/-- C2: in the admission gate, when the global `globalSearch` consume fails,
the request is rejected with the global retry delay and every per-thread
`threadSearch` bucket is left exactly as it was — the per-conversation
bucket is not consumed on a chain rejection, and the thread check never runs
before the global check has passed. -/
theorem admissionGate_global_reject_leaves_thread_bucket (now : ℚ) (shard : ℕ)
    (threadId : String) (s : RateLimiterState)
    (h : (consumeBucket (shardConfig globalSearchLimit)
      (s.globalShards (shard % globalSearchLimit.shards)) now 1).1.ok = false) :
    (admissionGate now shard threadId s).2.threadBuckets = s.threadBuckets ∧
    (admissionGate now shard threadId s).1 =
      GateOutcome.rejectedGlobal
        ((consumeBucket (shardConfig globalSearchLimit)
          (s.globalShards (shard % globalSearchLimit.shards)) now 1).1.retryAfter) := by
  unfold admissionGate
  simp [h]

/-- C2 witness: with empty global shard buckets and a full thread bucket,
the gate rejects globally at elapsed time zero and the thread bucket
function is unchanged. -/
theorem admissionGate_global_reject_leaves_thread_bucket_witness :
    (consumeBucket (shardConfig globalSearchLimit)
      (sGate.globalShards (0 % globalSearchLimit.shards)) 0 1).1.ok = false ∧
    (admissionGate 0 0 "thread-1" sGate).2.threadBuckets = sGate.threadBuckets ∧
    (admissionGate 0 0 "thread-1" sGate).2.threadBuckets "thread-1" =
      { value := 10, ts := 0 } := by
  have h : (consumeBucket (shardConfig globalSearchLimit)
      (sGate.globalShards (0 % globalSearchLimit.shards)) 0 1).1.ok = false := by
    norm_num [consumeBucket, refillValue, shardConfig, globalSearchLimit, sGate, HOUR]
  have hm := admissionGate_global_reject_leaves_thread_bucket 0 0 "thread-1" sGate h
  exact ⟨h, hm.1, by rw [hm.1]; rfl⟩

/-- C3: when the Sponsored Retriever fails (error or timeout), the
orchestrator catches the failure and substitutes an absent sponsored result:
`sendMessage` still returns a non-error structured response carrying the
organic response text, and the failure is not propagated. -/
theorem sendMessage_sponsored_failure_graceful (threadId organicText : String)
    (organicSources : Option (List SourceRef)) (ids : Option (List ℤ)) :
    sendMessage threadId organicText organicSources ids (Except.error ()) =
      { threadId := threadId, responseText := organicText,
        sources := organicSources, sponsoredSources := none } := by
  cases ids with
  | none => rfl
  | some l => by_cases hl : l.isEmpty <;> simp [sendMessage, hl]

/-- C4: `sendMessage` accepts an optional `sponsoredContributorIds` list and
returns the structured `{threadId, responseText, sources?, sponsoredSources?}`
response, where, for a non-empty allowlist and a successful sponsored run,
`sponsoredSources` is the Sponsored Retriever's result list mapped to
`{title, link, truncatedContent}` source references. -/
theorem sendMessage_sponsored_response_shape (threadId organicText : String)
    (organicSources : Option (List SourceRef)) (i : ℤ) (rest : List ℤ)
    (results : List SlimArticle) :
    sendMessage threadId organicText organicSources (some (i :: rest))
      (Except.ok results) =
      { threadId := threadId, responseText := organicText,
        sources := organicSources,
        sponsoredSources := some (results.map toSourceRef) } ∧
    ∀ s : SlimArticle, toSourceRef s =
      { title := s.title, link := s.reconstructedLink,
        truncatedContent := truncatedContentOf s.content } := by
  exact ⟨by simp [sendMessage], fun s => rfl⟩

/-- Helper: the two sides of the ranking pipeline permutation. -/
theorem rankSponsored_perm (queryEmbedding : List ℝ) (cs : List Article) :
    List.Perm
      (List.insertionSort simDescending
        ((cs.filter hasNonemptyEmbedding).map
          (fun article =>
            (article, cosineSimilarity queryEmbedding (article.embedding.getD [])))))
      ((cs.filter hasNonemptyEmbedding).map
        (fun article =>
          (article, cosineSimilarity queryEmbedding (article.embedding.getD [])))) :=
  List.perm_insertionSort _ _

/-- C7: the sponsored ranking keeps exactly the candidates with a present,
non-empty stored embedding (excluded candidates never appear in the output,
for every limit), the output is sorted by descending cosine similarity to
the query, and its length is `min (limit default 3) (number of kept
candidates)`. -/
theorem rankSponsored_spec (queryEmbedding : List ℝ) (cs : List Article)
    (limit : Option ℕ) :
    (rankSponsored queryEmbedding cs limit).length =
      min (limit.getD 3) (cs.filter hasNonemptyEmbedding).length ∧
    List.Sorted simDescending (rankSponsored queryEmbedding cs limit) ∧
    (∀ p ∈ rankSponsored queryEmbedding cs limit,
      p.1 ∈ cs ∧ hasNonemptyEmbedding p.1 = true) ∧
    (∀ a ∈ cs, hasNonemptyEmbedding a = false →
      ∀ score : ℝ, (a, score) ∉ rankSponsored queryEmbedding cs limit) := by
  have hperm := rankSponsored_perm queryEmbedding cs
  have key : ∀ p ∈ rankSponsored queryEmbedding cs limit,
      p.1 ∈ cs ∧ hasNonemptyEmbedding p.1 = true := by
    intro p hp
    unfold rankSponsored at hp
    have hmem := hperm.mem_iff.mp (List.mem_of_mem_take hp)
    rw [List.mem_map] at hmem
    obtain ⟨article, hart, rfl⟩ := hmem
    exact ⟨(List.mem_filter.mp hart).1, (List.mem_filter.mp hart).2⟩
  refine ⟨?_, ?_, key, ?_⟩
  · unfold rankSponsored
    rw [List.length_take, hperm.length_eq, List.length_map]
  · unfold rankSponsored
    exact List.Pairwise.sublist (List.take_sublist _ _)
      (List.sorted_insertionSort _ _)
  · intro a _ hfalse score hmem
    have hk := (key (a, score) hmem).2
    rw [hfalse] at hk
    exact Bool.false_ne_true hk

/-- C7 witness: a candidate with no stored embedding is excluded for the
explicit limit 5, and the ranked output over that single candidate is
empty. -/
theorem rankSponsored_spec_witness :
    (artN, (0 : ℝ)) ∉ rankSponsored [1] [artN] (some 5) ∧
    (rankSponsored [1] [artN] (some 5)).length = 0 := by
  have h := rankSponsored_spec [1] [artN] (some 5)
  refine ⟨h.2.2.2 artN (by simp) rfl 0, ?_⟩
  rw [h.1]
  decide

/-- Helper: a sum of squares is nonnegative. -/
theorem sumSquares_nonneg (l : List ℝ) : 0 ≤ sumSquares l := by
  unfold sumSquares
  apply List.sum_nonneg
  intro x hx
  simp only [List.mem_map] at hx
  obtain ⟨v, _, rfl⟩ := hx
  exact mul_self_nonneg v

/-- Helper: a list with a non-zero entry has a positive sum of squares. -/
theorem sumSquares_pos (l : List ℝ) (x : ℝ) (hx : x ∈ l) (hx0 : x ≠ 0) :
    0 < sumSquares l := by
  have h1 : 0 < x * x := mul_self_pos.mpr hx0
  have h2 : x * x ≤ sumSquares l := by
    unfold sumSquares
    apply List.single_le_sum
    · intro y hy
      simp only [List.mem_map] at hy
      obtain ⟨v, _, rfl⟩ := hy
      exact mul_self_nonneg v
    · exact List.mem_map_of_mem _ hx
  linarith

/-- Helper: the dot product as a `Finset.range` sum over the query's
indices, with out-of-range candidate entries reading as zero. -/
theorem dotProduct_eq_sum (a : List ℝ) : ∀ b : List ℝ,
    dotProduct a b = ∑ i in Finset.range a.length, a.getD i 0 * b.getD i 0 := by
  induction a with
  | nil => intro b; simp [dotProduct]
  | cons v t ih =>
    intro b
    cases b with
    | nil => simp [dotProduct]
    | cons w u =>
      have hz : dotProduct (v :: t) (w :: u) = v * w + dotProduct t u := by
        simp [dotProduct]
      rw [hz, List.length_cons, Finset.sum_range_succ']
      simp only [List.getD_cons_succ, List.getD_cons_zero]
      rw [← ih u]
      ring

/-- Helper: the sum of squares as a `Finset.range` sum. -/
theorem sumSquares_eq_sum (l : List ℝ) :
    sumSquares l = ∑ i in Finset.range l.length, l.getD i 0 ^ 2 := by
  induction l with
  | nil => simp [sumSquares]
  | cons v t ih =>
    have hz : sumSquares (v :: t) = v * v + sumSquares t := by
      simp [sumSquares]
    rw [hz, ih, List.length_cons, Finset.sum_range_succ']
    simp only [List.getD_cons_succ, List.getD_cons_zero]
    ring

/-- Helper: Cauchy-Schwarz for the embedded dot product and magnitudes of
equal-dimension vectors. -/
theorem abs_dotProduct_le (a b : List ℝ) (hlen : a.length = b.length) :
    |dotProduct a b| ≤ magnitude a * magnitude b := by
  have e1 := dotProduct_eq_sum a b
  have e2 : magnitude a =
      Real.sqrt (∑ i in Finset.range a.length, a.getD i 0 ^ 2) := by
    rw [magnitude, sumSquares_eq_sum]
  have e3 : magnitude b =
      Real.sqrt (∑ i in Finset.range a.length, b.getD i 0 ^ 2) := by
    rw [magnitude, sumSquares_eq_sum, hlen]
  have h1 := Real.sum_mul_le_sqrt_mul_sqrt (Finset.range a.length)
    (fun i => a.getD i 0) (fun i => b.getD i 0)
  have h2 := Real.sum_mul_le_sqrt_mul_sqrt (Finset.range a.length)
    (fun i => a.getD i 0) (fun i => -(b.getD i 0))
  rw [abs_le]
  constructor
  · have hneg : ∑ i in Finset.range a.length, a.getD i 0 * -(b.getD i 0) =
        -(∑ i in Finset.range a.length, a.getD i 0 * b.getD i 0) := by
      rw [← Finset.sum_neg_distrib]
      apply Finset.sum_congr rfl
      intro i _
      ring
    have hsq : ∀ i, (-(b.getD i 0)) ^ 2 = b.getD i 0 ^ 2 := fun i => by ring
    rw [hneg] at h2
    simp only [hsq] at h2
    rw [e1, e2, e3]
    linarith
  · rw [e1, e2, e3]
    exact h1

/-- Helper: dot product of a vector with a positive rescaling of itself. -/
theorem dotProduct_map_smul (c : ℝ) (a : List ℝ) :
    dotProduct a (a.map (fun v => c * v)) = c * sumSquares a := by
  induction a with
  | nil => simp [dotProduct, sumSquares]
  | cons v t ih =>
    have h1 : dotProduct (v :: t) ((v :: t).map (fun x => c * x)) =
        v * (c * v) + dotProduct t (t.map (fun x => c * x)) := by
      simp [dotProduct]
    have h2 : sumSquares (v :: t) = v * v + sumSquares t := by
      simp [sumSquares]
    rw [h1, ih, h2]
    ring

/-- Helper: sum of squares of a rescaled vector. -/
theorem sumSquares_map_smul (c : ℝ) (a : List ℝ) :
    sumSquares (a.map (fun v => c * v)) = c ^ 2 * sumSquares a := by
  induction a with
  | nil => simp [sumSquares]
  | cons v t ih =>
    have h1 : sumSquares ((v :: t).map (fun x => c * x)) =
        (c * v) * (c * v) + sumSquares (t.map (fun x => c * x)) := by
      simp [sumSquares]
    have h2 : sumSquares (v :: t) = v * v + sumSquares t := by
      simp [sumSquares]
    rw [h1, ih, h2]
    ring

/-- C8: for non-zero vectors of equal dimension (exact arithmetic), the
computed cosine similarity lies in `[-1, 1]`; it equals 1 when the candidate
points in the identical direction (a positive rescaling of the query) and 0
when the vectors are orthogonal. -/
theorem cosineSimilarity_bounds (a b : List ℝ) (hlen : a.length = b.length)
    (ha : ∃ x ∈ a, x ≠ 0) (hb : ∃ x ∈ b, x ≠ 0) :
    (-1 ≤ cosineSimilarity a b ∧ cosineSimilarity a b ≤ 1) ∧
    (∀ c : ℝ, 0 < c → b = a.map (fun v => c * v) → cosineSimilarity a b = 1) ∧
    (dotProduct a b = 0 → cosineSimilarity a b = 0) := by
  obtain ⟨xa, hxa, hxa0⟩ := ha
  obtain ⟨xb, hxb, hxb0⟩ := hb
  have hSa : 0 < sumSquares a := sumSquares_pos a xa hxa hxa0
  have hma : 0 < magnitude a := Real.sqrt_pos.mpr hSa
  have hmb : 0 < magnitude b :=
    Real.sqrt_pos.mpr (sumSquares_pos b xb hxb hxb0)
  have hD : 0 < magnitude a * magnitude b := mul_pos hma hmb
  have habs := abs_dotProduct_le a b hlen
  refine ⟨⟨?_, ?_⟩, ?_, ?_⟩
  · rw [cosineSimilarity, le_div_iff₀ hD]
    have := (abs_le.mp habs).1
    linarith
  · rw [cosineSimilarity, div_le_one hD]
    exact (abs_le.mp habs).2
  · intro c hc hbc
    subst hbc
    rw [cosineSimilarity, dotProduct_map_smul, magnitude, magnitude,
      sumSquares_map_smul, Real.sqrt_mul (sq_nonneg c), Real.sqrt_sq hc.le,
      show Real.sqrt (sumSquares a) * (c * Real.sqrt (sumSquares a)) =
        c * (Real.sqrt (sumSquares a) * Real.sqrt (sumSquares a)) from by ring,
      Real.mul_self_sqrt (le_of_lt hSa)]
    exact div_self (by positivity)
  · intro h0
    rw [cosineSimilarity, h0, zero_div]

/-- C8 witness: the bounds at the orthogonal pair `[1, 0]`, `[0, 1]` (score
0) and the identical-direction pair `[1, 0]`, `[2, 0]` (score 1). -/
theorem cosineSimilarity_bounds_witness :
    (-1 ≤ cosineSimilarity [1, 0] [0, 1] ∧ cosineSimilarity [1, 0] [0, 1] ≤ 1) ∧
    cosineSimilarity [1, 0] [0, 1] = 0 ∧
    cosineSimilarity [1, 0] [2, 0] = 1 := by
  have h1 := cosineSimilarity_bounds [1, 0] [0, 1] rfl
    ⟨1, by simp, one_ne_zero⟩ ⟨1, by simp, one_ne_zero⟩
  have h2 := cosineSimilarity_bounds [1, 0] [2, 0] rfl
    ⟨1, by simp, one_ne_zero⟩ ⟨2, by simp, two_ne_zero⟩
  refine ⟨h1.1, h1.2.2 ?_, h2.2.1 2 two_pos ?_⟩
  · norm_num [dotProduct]
  · norm_num

/-- C10: the cosine-similarity division in
`searchSponsoredContributorArticles` is unguarded — a candidate whose stored
embedding is non-empty but of zero magnitude, or shorter than the query
vector, passes the `embedding && embedding.length > 0` filter (its score is
the junk value of the division, `NaN` in the source's float arithmetic) and
still appears in the returned top-limit list. -/
theorem sponsored_unguarded_similarity_candidates_surface :
    hasNonemptyEmbedding artZero = true ∧
    magnitude (artZero.embedding.getD []) = 0 ∧
    (artZero, cosineSimilarity [1] [0]) ∈ rankSponsored [1] [artZero] none ∧
    hasNonemptyEmbedding artShort = true ∧
    (artShort.embedding.getD []).length < ([1, 1] : List ℝ).length ∧
    (artShort, cosineSimilarity [1, 1] [2]) ∈ rankSponsored [1, 1] [artShort] none := by
  refine ⟨rfl, ?_, ?_, rfl, by decide, ?_⟩
  · show magnitude [(0 : ℝ)] = 0
    have hz : sumSquares [(0 : ℝ)] = 0 := by
      simp [sumSquares]
    rw [magnitude, hz, Real.sqrt_zero]
  · rw [show rankSponsored [1] [artZero] none =
      [(artZero, cosineSimilarity [1] [0])] from rfl]
    exact List.mem_singleton.mpr rfl
  · rw [show rankSponsored [1, 1] [artShort] none =
      [(artShort, cosineSimilarity [1, 1] [2])] from rfl]
    exact List.mem_singleton.mpr rfl
